import Mathlib

/-!
Verification development for the UDP joystick server (src/server.ts).

The embedding models the JavaScript runtime values produced by JSON.parse
(plus `undefined`, which arises from property accesses), the relevant
built-ins (`JSON.parse`, `parseFloat`, `String.prototype.padStart`,
`Map.set`), and the server's message callback, joystick handler, text
handler, client cleanup and stats reporting.  Clock reads
(`Date.now()`, `toLocaleTimeString()`) are inputs supplied by an
environment record; console output is modelled as a list of structured
log events (the exact formatting of a log line is cosmetic and external);
`server.send` is modelled as emitting the message, since sends are
fire-and-forget.  JavaScript numbers are modelled as exact rationals with
explicit NaN and infinity for `parseFloat` results.
-/

namespace UdpServer

/-- An exact decimal number `m / 10 ^ k`: the value of a JSON or
parseFloat decimal literal.  (JS numbers are binary floats; every literal
this server thresholds is an exact decimal, which we carry exactly.) -/
structure DecNum where
  m : Int
  k : Nat
deriving DecidableEq

/-- `10 ^ k` as an integer, by structural recursion (kernel-computable). -/
def tenPowN : Nat → Int
  | 0 => 1
  | n + 1 => 10 * tenPowN n

/-- The rational value of an exact decimal. -/
def DecNum.toRat (a : DecNum) : ℚ := (a.m : ℚ) / ((tenPowN a.k : Int) : ℚ)

/-- Strict comparison of exact decimals by cross-multiplication. -/
def DecNum.ltB (a b : DecNum) : Bool :=
  decide (a.m * tenPowN b.k < b.m * tenPowN a.k)

/-- Negation of an exact decimal. -/
def DecNum.neg (a : DecNum) : DecNum := ⟨-a.m, a.k⟩

/-- Pack a value `m * 10 ^ k10` (signed power) into a `DecNum`. -/
def mkDec (m : Nat) (k10 : Int) : DecNum :=
  if 0 ≤ k10 then ⟨(m : Int) * tenPowN k10.toNat, 0⟩
  else ⟨(m : Int), (-k10).toNat⟩

/-- The significance threshold 0.1 of handleJoystickData. -/
def pointOne : DecNum := ⟨1, 1⟩

/-- JavaScript runtime values reachable in this program: everything
JSON.parse can produce, plus `undefined` from absent-property accesses. -/
inductive JVal where
  | undefined
  | null
  | bool (b : Bool)
  | num (q : DecNum)
  | str (s : String)
  | arr (elems : List JVal)
  | obj (fields : List (String × JVal))

/-- JS property access `e[k]`: throws a TypeError when the receiver is
undefined or null; yields undefined for an absent property; primitive
receivers (number, string, bool, array) yield undefined for the property
names this server ever reads. -/
def jsGet : JVal → String → Except Unit JVal
  | .undefined, _ => .error ()
  | .null, _ => .error ()
  | .obj fs, k => .ok ((fs.lookup k).getD .undefined)
  | _, _ => .ok .undefined

/-- A JS number as produced by `parseFloat`: NaN, a signed infinity, or a
finite value (modelled as an exact decimal). -/
inductive PFloat where
  | nan
  | inf (neg : Bool)
  | fin (q : DecNum)
deriving DecidableEq

/-- The JS comparison `x > c` of a parseFloat result against a constant:
false whenever `x` is NaN. -/
def PFloat.gt : PFloat → DecNum → Bool
  | .nan, _ => false
  | .inf neg, _ => !neg
  | .fin q, c => DecNum.ltB c q

/-- The whitespace characters JSON allows between tokens. -/
def isWs (c : Char) : Bool :=
  c == ' ' || c == '\t' || c == '\n' || c == '\r'

/-- The ECMAScript StrWhiteSpace characters `parseFloat` trims: WhiteSpace
(tab, VT, FF, space, NBSP, ZWNBSP and the Unicode Zs separators) and the
LineTerminator set (LF, CR, LS, PS). -/
def isStrWs (c : Char) : Bool :=
  c == ' ' || c == '\t' || c == '\n' || c == '\r' ||
  c == '\x0b' || c == '\x0c' ||
  c.toNat == 0xa0 || c.toNat == 0x1680 ||
  (0x2000 ≤ c.toNat && c.toNat ≤ 0x200a) ||
  c.toNat == 0x2028 || c.toNat == 0x2029 ||
  c.toNat == 0x202f || c.toNat == 0x205f || c.toNat == 0x3000 ||
  c.toNat == 0xfeff

/-- Longest run of decimal digits at the front of the text. -/
def takeDigits : List Char → List Char × List Char
  | [] => ([], [])
  | c :: cs =>
    if c.isDigit then
      let (d, r) := takeDigits cs
      (c :: d, r)
    else ([], c :: cs)

/-- Value of a run of decimal digits. -/
def digitsToNat (ds : List Char) : Nat :=
  ds.foldl (fun a c => 10 * a + (c.toNat - 48)) 0

/-- Exponent suffix `e`/`E` with optional sign, as read by `parseFloat`:
an incomplete exponent (no digit) is trailing garbage and contributes
exponent 0. -/
def parseExpPart : List Char → Int
  | [] => 0
  | c :: cs =>
    if c == 'e' || c == 'E' then
      match cs with
      | '+' :: cs2 =>
        let (d, _) := takeDigits cs2
        if d.isEmpty then 0 else (digitsToNat d : Int)
      | '-' :: cs2 =>
        let (d, _) := takeDigits cs2
        if d.isEmpty then 0 else -(digitsToNat d : Int)
      | cs2 =>
        let (d, _) := takeDigits cs2
        if d.isEmpty then 0 else (digitsToNat d : Int)
    else 0

/-- A decimal literal at the front of the text, after the optional sign:
digits, optionally a fraction part, optionally an exponent; anything
after the longest valid literal is ignored (parseFloat semantics).
`none` means no digit was found (NaN).  The value of `ip.fp e x` is
`digits(ip ++ fp) * 10 ^ (x - fp.length)`. -/
def parseDec (cs : List Char) : Option DecNum :=
  let (ip, r1) := takeDigits cs
  match r1 with
  | '.' :: r2 =>
    let (fp, r3) := takeDigits r2
    if ip.isEmpty && fp.isEmpty then none
    else
      some (mkDec (digitsToNat (ip ++ fp)) (parseExpPart r3 - (fp.length : Int)))
  | _ =>
    if ip.isEmpty then none
    else some (mkDec (digitsToNat ip) (parseExpPart r1))

/-- JS `parseFloat` on a string: skip StrWhiteSpace, optional sign, then
either `Infinity` or the longest decimal-literal prefix; NaN when no
number can be read. -/
def parseFloatS (s : String) : PFloat :=
  let cs := s.data.dropWhile isStrWs
  let signed : Bool × List Char :=
    match cs with
    | '-' :: r => (true, r)
    | '+' :: r => (false, r)
    | _ => (false, cs)
  match signed.2 with
  | 'I' :: 'n' :: 'f' :: 'i' :: 'n' :: 'i' :: 't' :: 'y' :: _ => .inf signed.1
  | rest =>
    match parseDec rest with
    | none => .nan
    | some q => .fin (if signed.1 then q.neg else q)

/-- JS `parseFloat` applied to an arbitrary value, which is coerced to a
string first: undefined, null, booleans and plain objects stringify to
text with no leading decimal literal (NaN); a number stringifies back to
itself; an array stringifies to its comma-joined elements, so a leading
string or number element decides the result. -/
def jsParseFloat : JVal → PFloat
  | .str s => parseFloatS s
  | .num q => .fin q
  | .arr (.str s :: _) => parseFloatS s
  | .arr (.num q :: _) => .fin q
  | _ => .nan

/-- Skip JSON whitespace. -/
def skipWs : List Char → List Char
  | [] => []
  | c :: cs => if isWs c then skipWs cs else c :: cs

/-- Hexadecimal digit value. -/
def hexVal (c : Char) : Option Nat :=
  if c.isDigit then some (c.toNat - 48)
  else if 'a' ≤ c && c ≤ 'f' then some (c.toNat - 87)
  else if 'A' ≤ c && c ≤ 'F' then some (c.toNat - 70)
  else none

/-- Body of a JSON string (after the opening quote), with the JSON escape
sequences; control characters are rejected, as JSON.parse does. -/
def pStringAux : List Char → List Char → Option (String × List Char)
  | acc, '"' :: r => some (String.mk acc.reverse, r)
  | acc, '\\' :: e :: r =>
    match e with
    | '"' => pStringAux ('"' :: acc) r
    | '\\' => pStringAux ('\\' :: acc) r
    | '/' => pStringAux ('/' :: acc) r
    | 'b' => pStringAux ('\x08' :: acc) r
    | 'f' => pStringAux ('\x0c' :: acc) r
    | 'n' => pStringAux ('\n' :: acc) r
    | 'r' => pStringAux ('\r' :: acc) r
    | 't' => pStringAux ('\t' :: acc) r
    | 'u' =>
      match r with
      | h1 :: h2 :: h3 :: h4 :: r2 =>
        match hexVal h1, hexVal h2, hexVal h3, hexVal h4 with
        | some a, some b, some c, some d =>
          pStringAux (Char.ofNat (((a * 16 + b) * 16 + c) * 16 + d) :: acc) r2
        | _, _, _, _ => none
      | _ => none
    | _ => none
  | acc, c :: r => if c.toNat < 32 then none else pStringAux (c :: acc) r
  | _, [] => none

/-- Leading-zero rejection of the JSON number grammar. -/
def leadZeroBad : List Char → Bool
  | '0' :: _ :: _ => true
  | _ => false

/-- Strict JSON exponent part: nothing, or `e`/`E`, optional sign, and at
least one digit (otherwise the whole number is a syntax error). -/
def pExp : List Char → Option (Int × List Char)
  | [] => some (0, [])
  | c :: cs =>
    if c == 'e' || c == 'E' then
      let signed : Bool × List Char :=
        match cs with
        | '+' :: r => (false, r)
        | '-' :: r => (true, r)
        | _ => (false, cs)
      let (d, r) := takeDigits signed.2
      if d.isEmpty then none
      else some ((if signed.1 then -(digitsToNat d : Int) else (digitsToNat d : Int)), r)
    else some (0, c :: cs)

/-- Strict JSON number grammar: `-? (0 | [1-9][0-9]*) frac? exp?`. -/
def pNumber (cs : List Char) : Option (DecNum × List Char) :=
  let signed : Bool × List Char :=
    match cs with
    | '-' :: r => (true, r)
    | _ => (false, cs)
  let (ip, r1) := takeDigits signed.2
  if ip.isEmpty then none
  else if leadZeroBad ip then none
  else
    let core : Option (DecNum × List Char) :=
      match r1 with
      | '.' :: r2 =>
        let (fp, r3) := takeDigits r2
        if fp.isEmpty then none
        else
          match pExp r3 with
          | none => none
          | some (e, r4) =>
            some (mkDec (digitsToNat (ip ++ fp)) (e - (fp.length : Int)), r4)
      | _ =>
        match pExp r1 with
        | none => none
        | some (e, r4) => some (mkDec (digitsToNat ip) e, r4)
    match core with
    | none => none
    | some (q, r) => some ((if signed.1 then q.neg else q), r)

/-- A later duplicate object key overrides an earlier one, as in
JSON.parse; fields are accumulated right-to-left, so an earlier field is
dropped when the later fields already bind its key. -/
def consField (k : String) (v : JVal) (fs : List (String × JVal)) :
    List (String × JVal) :=
  if fs.any (fun e => e.1 == k) then fs else (k, v) :: fs

mutual

/-- One JSON value at the front of the text (fuelled recursive descent). -/
def pValue : Nat → List Char → Option (JVal × List Char)
  | 0, _ => none
  | fuel + 1, cs =>
    match skipWs cs with
    | 'n' :: 'u' :: 'l' :: 'l' :: r => some (.null, r)
    | 't' :: 'r' :: 'u' :: 'e' :: r => some (.bool true, r)
    | 'f' :: 'a' :: 'l' :: 's' :: 'e' :: r => some (.bool false, r)
    | '"' :: r =>
      match pStringAux [] r with
      | some (s, r2) => some (.str s, r2)
      | none => none
    | '\x5b' :: r =>
      (match skipWs r with
       | '\x5d' :: r2 => some (.arr [], r2)
       | r2 =>
         match pElems fuel r2 with
         | some (es, r3) => some (.arr es, r3)
         | none => none)
    | '\x7b' :: r =>
      (match skipWs r with
       | '\x7d' :: r2 => some (.obj [], r2)
       | r2 =>
         match pMembers fuel r2 with
         | some (fs, r3) => some (.obj fs, r3)
         | none => none)
    | cs2 =>
      match pNumber cs2 with
      | some (q, r) => some (.num q, r)
      | none => none

/-- Comma-separated array elements up to the closing bracket. -/
def pElems : Nat → List Char → Option (List JVal × List Char)
  | 0, _ => none
  | fuel + 1, cs =>
    match pValue fuel cs with
    | none => none
    | some (v, r) =>
      match skipWs r with
      | ',' :: r2 =>
        (match pElems fuel r2 with
         | some (vs, r3) => some (v :: vs, r3)
         | none => none)
      | '\x5d' :: r2 => some ([v], r2)
      | _ => none

/-- Comma-separated object members up to the closing brace. -/
def pMembers : Nat → List Char → Option (List (String × JVal) × List Char)
  | 0, _ => none
  | fuel + 1, cs =>
    match skipWs cs with
    | '"' :: r =>
      (match pStringAux [] r with
       | none => none
       | some (k, r2) =>
         match skipWs r2 with
         | ':' :: r3 =>
           (match pValue fuel r3 with
            | none => none
            | some (v, r4) =>
              match skipWs r4 with
              | ',' :: r5 =>
                (match pMembers fuel r5 with
                 | some (fs, r6) => some (consField k v fs, r6)
                 | none => none)
              | '\x7d' :: r5 => some ([(k, v)], r5)
              | _ => none)
         | _ => none)
    | _ => none

end

/-- `JSON.parse` on the whole payload; `none` models the thrown
SyntaxError.  The fuel bound exceeds the maximal possible nesting. -/
def jsonParse (s : String) : Option JVal :=
  match pValue (2 * s.length + 2) s.data with
  | some (v, r) => if skipWs r = [] then some v else none
  | none => none

/-- JS `Map.set` on the clients map: overwrite the entry in place when the
key is present, otherwise append a new entry. -/
def mapSet (m : List (String × Nat)) (k : String) (v : Nat) :
    List (String × Nat) :=
  if m.any (fun e => e.1 == k) then
    m.map (fun e => if e.1 == k then (k, v) else e)
  else m ++ [(k, v)]

/-- The inactivity timeout of cleanupClients (60 seconds, in ms). -/
def timeoutMs : Nat := 60000

/-- The cleanup interval (30 seconds, in ms). -/
def cleanupIntervalMs : Nat := 30000

/-- The stats interval (60 seconds, in ms). -/
def statsIntervalMs : Nat := 60000

/-- cleanupClients: delete every entry with `now - lastSeen > timeout`
(with JS number subtraction; for Nat, `now - lastSeen > timeoutMs` says
exactly `now > lastSeen + timeoutMs`, matching the JS comparison since a
negative difference also fails it). -/
def cleanupClients (m : List (String × Nat)) (now : Nat) :
    List (String × Nat) :=
  m.filter (fun e => !(decide (timeoutMs < now - e.2)))

/-- The sender address of a datagram. -/
structure Rinfo where
  address : String
  port : Nat
deriving DecidableEq

/-- The client identity string built in the message callback. -/
def clientId (r : Rinfo) : String := r.address ++ ":" ++ toString r.port

/-- The clock readings and locale-formatted time observed while handling
one datagram: `recvNow` is the `Date.now()` at the touch, `localTimeStr`
the `toLocaleTimeString()` value used by the handlers, `ackNow` the
`Date.now()` used in the control acknowledgment. -/
structure Env where
  recvNow : Nat
  localTimeStr : String
  ackNow : Nat
deriving DecidableEq

/-- Which joystick a log line is about. -/
inductive AxisTag where
  | left
  | right
deriving DecidableEq

/-- One console.log line (or an unbreakable group of lines) of the
handlers; the exact text formatting is external and cosmetic. -/
inductive LogEvent where
  | joyHeader (timeStr : String)
  | fromLine (address : String) (port : Nat)
  | separator
  | axisHeader (ax : AxisTag)
  | axisXY (ax : AxisTag) (x y : String)
  | axisAngle (ax : AxisTag) (angle : String) (distance : JVal)
  | textHeader (timeStr : String)
  | textBody (message : String)

/-- The control acknowledgment object before JSON.stringify. -/
structure ControlAck where
  status : String
  timestamp : Nat
deriving DecidableEq

/-- One datagram handed to `server.send` (fire-and-forget). -/
inductive Sent where
  | control (ack : ControlAck) (dest : Rinfo)
  | text (s : String) (dest : Rinfo)

/-- `s.padStart(n)`: pad with spaces on the left up to length n. -/
def padStartS (s : String) (n : Nat) : String :=
  String.mk (List.replicate (n - s.length) ' ') ++ s

/-- `v.padStart(6)` as a method call: it throws unless the receiver is an
actual string (undefined, null, numbers, booleans, arrays and objects
have no `padStart`). -/
def jsPadStart (v : JVal) (n : Nat) : Except Unit String :=
  match v with
  | .str s => .ok (padStartS s n)
  | _ => .error ()

/-- One joystick block of handleJoystickData: the axis-header line, the
X/Y line, and the angle/distance line, with the JS evaluation order of
the `padStart` calls; a field that is not a string makes its line throw
after the earlier lines were already printed.  The receiver `o` is the
axis object, known non-null because its `distance` was read before. -/
def axisBlock (ax : AxisTag) (o : JVal) : List LogEvent × Except Unit Unit :=
  match jsGet o "x" with
  | .error _ => ([.axisHeader ax], .error ())
  | .ok xv =>
    match jsPadStart xv 6 with
    | .error _ => ([.axisHeader ax], .error ())
    | .ok xs =>
      match jsGet o "y" with
      | .error _ => ([.axisHeader ax], .error ())
      | .ok yv =>
        match jsPadStart yv 6 with
        | .error _ => ([.axisHeader ax], .error ())
        | .ok ys =>
          match jsGet o "angle" with
          | .error _ => ([.axisHeader ax, .axisXY ax xs ys], .error ())
          | .ok av =>
            match jsPadStart av 6 with
            | .error _ => ([.axisHeader ax, .axisXY ax xs ys], .error ())
            | .ok angs =>
              match jsGet o "distance" with
              | .error _ => ([.axisHeader ax, .axisXY ax xs ys], .error ())
              | .ok dv =>
                ([.axisHeader ax, .axisXY ax xs ys, .axisAngle ax angs dv],
                 .ok ())

/-- handleJoystickData: read both distances (property access may throw),
apply the 0.1 significance threshold with JS NaN semantics, log the block
of each significant axis, and send the JSON acknowledgment
`{status, timestamp}`.  First component: the console output emitted up to
a possible throw; an `error` result is a raised exception. -/
def handleJoystickData (env : Env) (data : JVal) (rinfo : Rinfo) :
    List LogEvent × Except Unit (List Sent) :=
  match jsGet data "left" with
  | .error _ => ([], .error ())
  | .ok l =>
    match jsGet l "distance" with
    | .error _ => ([], .error ())
    | .ok ldv =>
      match jsGet data "right" with
      | .error _ => ([], .error ())
      | .ok r =>
        match jsGet r "distance" with
        | .error _ => ([], .error ())
        | .ok rdv =>
          let leftDistance := jsParseFloat ldv
          let rightDistance := jsParseFloat rdv
          if leftDistance.gt pointOne || rightDistance.gt pointOne then
            let header := [LogEvent.joyHeader env.localTimeStr,
                           LogEvent.fromLine rinfo.address rinfo.port,
                           LogEvent.separator]
            let leftOut :=
              if leftDistance.gt pointOne then axisBlock .left l
              else ([], Except.ok ())
            match leftOut.2 with
            | .error _ => (header ++ leftOut.1, .error ())
            | .ok _ =>
              let rightOut :=
                if rightDistance.gt pointOne then axisBlock .right r
                else ([], Except.ok ())
              match rightOut.2 with
              | .error _ => (header ++ leftOut.1 ++ rightOut.1, .error ())
              | .ok _ =>
                (header ++ leftOut.1 ++ rightOut.1,
                 .ok [Sent.control ⟨"received", env.ackNow⟩ rinfo])
          else ([], .ok [])

/-- handleTextMessage: log the text block and echo the message back. -/
def handleTextMessage (env : Env) (message : String) (rinfo : Rinfo) :
    List LogEvent × List Sent :=
  ([LogEvent.textHeader env.localTimeStr,
    LogEvent.fromLine rinfo.address rinfo.port,
    LogEvent.textBody message,
    LogEvent.separator],
   [Sent.text ("Server received: \"" ++ message ++ "\" at " ++ env.localTimeStr)
      rinfo])

/-- The observable result of one run of the message callback. -/
structure HandleOut where
  clients : List (String × Nat)
  logs : List LogEvent
  sent : List Sent

/-- The `message` event callback of setupServer: touch the sender in the
clients map with the receipt time, then attempt JSON.parse; on a parse
failure, or when handleJoystickData throws, the inner catch falls back to
handleTextMessage on the raw text (whose own code cannot throw, so the
outer catch never fires and the callback is total). -/
def onMessage (clients0 : List (String × Nat)) (env : Env) (payload : String)
    (rinfo : Rinfo) : HandleOut :=
  let m1 := mapSet clients0 (clientId rinfo) env.recvNow
  match jsonParse payload with
  | none =>
    let out := handleTextMessage env payload rinfo
    ⟨m1, out.1, out.2⟩
  | some data =>
    match handleJoystickData env data rinfo with
    | (lg, .ok sn) => ⟨m1, lg, sn⟩
    | (lg, .error _) =>
      let out := handleTextMessage env payload rinfo
      ⟨m1, lg ++ out.1, out.2⟩

/-- The printed stats report. -/
structure StatsReport where
  activeClients : Nat
  port : Nat
  uptimeSeconds : Nat
  clientLines : List (String × Nat)

/-- getStats: read the clients map (its size, and its entries with the
last-seen age in whole seconds) and return it unchanged together with the
printed report. -/
def getStats (clients0 : List (String × Nat)) (port : Nat)
    (uptimeSeconds : Nat) (now : Nat) :
    StatsReport × List (String × Nat) :=
  (⟨clients0.length, port, uptimeSeconds,
    clients0.map (fun e => (e.1, (now - e.2) / 1000))⟩,
   clients0)

/-- The listener loop over a finite batch of datagrams: each datagram's
callback runs to completion, accumulating the clients map and the emitted
logs and sends. -/
def processAll (clients0 : List (String × Nat)) :
    List (Env × String × Rinfo) →
      List (String × Nat) × List LogEvent × List Sent
  | [] => (clients0, [], [])
  | d :: ds =>
    let out := onMessage clients0 d.1 d.2.1 d.2.2
    let rest := processAll out.clients ds
    (rest.1, out.logs ++ rest.2.1, out.sent ++ rest.2.2)

/-- Just the two distance property reads of handleJoystickData (the part
before thresholding); an `error` means the handler throws there. -/
def distancesResult (data : JVal) : Except Unit (JVal × JVal) :=
  match jsGet data "left" with
  | .error e => .error e
  | .ok l =>
    match jsGet l "distance" with
    | .error e => .error e
    | .ok ldv =>
      match jsGet data "right" with
      | .error e => .error e
      | .ok r =>
        match jsGet r "distance" with
        | .error e => .error e
        | .ok rdv => .ok (ldv, rdv)

/-- Modelled from the spec: the ControlFrame validity check of spec §3
("both axes must be present with all four fields for the frame to be
considered valid") — one axis object with x, y, angle, distance all
present. -/
def axisShapeOk (v : JVal) : Bool :=
  match v with
  | .obj fs =>
    (fs.lookup "x").isSome && (fs.lookup "y").isSome &&
    (fs.lookup "angle").isSome && (fs.lookup "distance").isSome
  | _ => false

/-- Modelled from the spec: a parsed payload matches the ControlFrame
shape when both axes are present and each has all four fields (spec §3);
a payload failing this check "fails ControlFrame parsing". -/
def specControlFrameShape (v : JVal) : Bool :=
  match v with
  | .obj fs =>
    (match fs.lookup "left" with
     | some l => axisShapeOk l
     | none => false) &&
    (match fs.lookup "right" with
     | some r => axisShapeOk r
     | none => false)
  | _ => false

/-! ### Concrete fixtures for witnesses and counterexamples -/

/-- One concrete observation environment. -/
def envW : Env := ⟨100, "T", 105⟩

/-- One concrete sender. -/
def rinfoW : Rinfo := ⟨"1.2.3.4", 5⟩

/-- An axis object whose four fields are the given strings. -/
def axisStrs (x y a d : String) : JVal :=
  JVal.obj [("x", JVal.str x), ("y", JVal.str y), ("angle", JVal.str a),
            ("distance", JVal.str d)]

/-- Spec scenario 1: both distances 0.0. -/
def scenario1Payload : String :=
  "\x7b\"left\":\x7b\"x\":\"0\",\"y\":\"0\",\"angle\":\"0\",\"distance\":\"0.0\"\x7d,\"right\":\x7b\"x\":\"0\",\"y\":\"0\",\"angle\":\"0\",\"distance\":\"0.0\"\x7d\x7d"

/-- The parse of scenario 1. -/
def vScenario1 : JVal :=
  JVal.obj [("left", axisStrs "0" "0" "0" "0.0"),
            ("right", axisStrs "0" "0" "0" "0.0")]

/-- Valid JSON with both axes present, left significant, but the right
axis lacking its distance field: it fails the spec shape check yet is
processed as a control frame. -/
def frameMissingDistance : String :=
  "\x7b\"left\":\x7b\"x\":\"1\",\"y\":\"0\",\"angle\":\"0\",\"distance\":\"0.5\"\x7d,\"right\":\x7b\"x\":\"0\",\"y\":\"0\",\"angle\":\"0\"\x7d\x7d"

/-- The parse of frameMissingDistance. -/
def vMissingDistance : JVal :=
  JVal.obj [("left", axisStrs "1" "0" "0" "0.5"),
            ("right", JVal.obj [("x", JVal.str "0"), ("y", JVal.str "0"),
                                ("angle", JVal.str "0")])]

/-- Valid JSON without a left or right axis. -/
def pFoo : String := "\x7b\"foo\":1\x7d"

/-- An otherwise well-formed frame whose left distance is malformed
numeric text and whose right distance is an insignificant 0. -/
def vMalformed : JVal :=
  JVal.obj [("left", axisStrs "0" "0" "0" "abc"),
            ("right", axisStrs "0" "0" "0" "0")]

/-- A datagram whose handling throws (JSON whose left axis is a number). -/
def dBad : Env × String × Rinfo :=
  (⟨1, "T", 2⟩, "\x7b\"left\":5\x7d", ⟨"9.9.9.9", 1⟩)

/-- A plain-text datagram. -/
def dGood : Env × String × Rinfo := (⟨3, "T", 4⟩, "hello", ⟨"8.8.8.8", 2⟩)

/-! ### Bridge between the computable decimal comparisons and ℚ -/

theorem tenPowN_pos (k : Nat) : 0 < tenPowN k := by
  induction k with
  | zero => norm_num [tenPowN]
  | succ n ih =>
    rw [tenPowN]
    exact mul_pos (by norm_num) ih

theorem DecNum.ltB_iff (a b : DecNum) : a.ltB b = true ↔ a.toRat < b.toRat := by
  unfold DecNum.ltB DecNum.toRat
  have ha : (0 : ℚ) < ((tenPowN a.k : Int) : ℚ) := by exact_mod_cast tenPowN_pos a.k
  have hb : (0 : ℚ) < ((tenPowN b.k : Int) : ℚ) := by exact_mod_cast tenPowN_pos b.k
  rw [decide_eq_true_eq, div_lt_div_iff₀ ha hb]
  constructor <;> intro h <;> exact_mod_cast h

theorem pointOne_toRat : pointOne.toRat = 1 / 10 := by
  unfold DecNum.toRat pointOne
  norm_num [tenPowN]

/-- The threshold test of the handler, read at the ℚ level. -/
theorem gt_pointOne_iff (d : DecNum) :
    (PFloat.fin d).gt pointOne = true ↔ (1 : ℚ) / 10 < d.toRat := by
  show DecNum.ltB pointOne d = true ↔ _
  rw [DecNum.ltB_iff, pointOne_toRat]

theorem gt_pointOne_eq_false (d : DecNum) (h : d.toRat ≤ 1 / 10) :
    (PFloat.fin d).gt pointOne = false := by
  rw [← Bool.not_eq_true, gt_pointOne_iff]
  exact not_lt.mpr h

/-! ### Lemmas about the clients map -/

theorem mem_keys_iff_any (m : List (String × Nat)) (k : String) :
    k ∈ m.map Prod.fst ↔ m.any (fun e => e.1 == k) = true := by
  rw [List.any_eq_true]
  constructor
  · intro h
    obtain ⟨e, he, hk⟩ := List.mem_map.mp h
    exact ⟨e, he, by simp [hk]⟩
  · rintro ⟨e, he, hk⟩
    exact List.mem_map.mpr ⟨e, he, by simpa using hk⟩

theorem mapSet_pos (m : List (String × Nat)) (k : String) (v : Nat)
    (h : m.any (fun e => e.1 == k) = true) :
    mapSet m k v = m.map (fun e => if e.1 == k then (k, v) else e) := by
  unfold mapSet
  rw [h]
  rfl

theorem mapSet_neg (m : List (String × Nat)) (k : String) (v : Nat)
    (h : m.any (fun e => e.1 == k) = false) :
    mapSet m k v = m ++ [(k, v)] := by
  unfold mapSet
  rw [h]
  rfl

theorem ite_beq_true {α : Type} (a b : String) (x y : α) (h : a = b) :
    (if a == b then x else y) = x := by
  simp [h]

theorem ite_beq_false {α : Type} (a b : String) (x y : α) (h : ¬ a = b) :
    (if a == b then x else y) = y := by
  simp [h]

theorem lookup_cons (b : String) (w : Nat) (es : List (String × Nat))
    (a : String) :
    ((b, w) :: es).lookup a = if b = a then some w else es.lookup a := by
  by_cases h : b = a
  · subst h; simp [List.lookup]
  · have hab : ¬ a = b := fun hh => h hh.symm
    have hb : (a == b) = false := by simpa using hab
    simp [List.lookup, hb, h]

theorem lookup_map_overwrite (m : List (String × Nat)) (k : String) (v : Nat)
    (h : m.any (fun e => e.1 == k) = true) :
    (m.map (fun e => if e.1 == k then (k, v) else e)).lookup k = some v := by
  induction m with
  | nil => simp at h
  | cons e es ih =>
    rcases e with ⟨b, w⟩
    simp only [List.any_cons, Bool.or_eq_true, beq_iff_eq] at h
    simp only [List.map_cons]
    by_cases hbk : b = k
    · rw [ite_beq_true _ _ _ _ hbk, lookup_cons, if_pos rfl]
    · rw [ite_beq_false _ _ _ _ hbk, lookup_cons, if_neg hbk]
      have h2 : es.any (fun x => x.1 == k) = true := by
        rcases h with h | h
        · exact absurd h hbk
        · exact h
      exact ih h2

theorem lookup_append_single (m : List (String × Nat)) (k : String) (v : Nat)
    (h : m.any (fun e => e.1 == k) = false) :
    (m ++ [(k, v)]).lookup k = some v := by
  induction m with
  | nil => simp [lookup_cons]
  | cons e es ih =>
    rcases e with ⟨b, w⟩
    simp only [List.any_cons, Bool.or_eq_false_iff, beq_eq_false_iff_ne,
      ne_eq] at h
    simp only [List.cons_append, lookup_cons, if_neg h.1]
    exact ih (by simpa using h.2)

theorem lookup_mapSet_self (m : List (String × Nat)) (k : String) (v : Nat) :
    (mapSet m k v).lookup k = some v := by
  cases h : m.any (fun e => e.1 == k) with
  | true => rw [mapSet_pos m k v h]; exact lookup_map_overwrite m k v h
  | false => rw [mapSet_neg m k v h]; exact lookup_append_single m k v h

theorem lookup_map_overwrite_ne (m : List (String × Nat)) (k k' : String)
    (v : Nat) (hne : k' ≠ k) :
    (m.map (fun e => if e.1 == k then (k, v) else e)).lookup k'
      = m.lookup k' := by
  induction m with
  | nil => rfl
  | cons e es ih =>
    rcases e with ⟨b, w⟩
    simp only [List.map_cons]
    by_cases hbk : b = k
    · have hkk : ¬ k = k' := fun hh => hne hh.symm
      have hbk' : ¬ b = k' := by rw [hbk]; exact hkk
      rw [ite_beq_true _ _ _ _ hbk, lookup_cons, if_neg hkk, lookup_cons,
        if_neg hbk']
      exact ih
    · rw [ite_beq_false _ _ _ _ hbk, lookup_cons, lookup_cons]
      by_cases hbk' : b = k'
      · rw [if_pos hbk', if_pos hbk']
      · rw [if_neg hbk', if_neg hbk']
        exact ih

theorem lookup_append_single_ne (m : List (String × Nat)) (k k' : String)
    (v : Nat) (hne : k' ≠ k) :
    (m ++ [(k, v)]).lookup k' = m.lookup k' := by
  induction m with
  | nil =>
    have hb : (k' == k) = false := by simpa using hne
    simp [lookup_cons, List.lookup, hb]
  | cons e es ih =>
    rcases e with ⟨b, w⟩
    simp only [List.cons_append, lookup_cons]
    by_cases hb : b = k'
    · rw [if_pos hb, if_pos hb]
    · rw [if_neg hb, if_neg hb]
      exact ih

theorem lookup_mapSet_ne (m : List (String × Nat)) (k k' : String) (v : Nat)
    (hne : k' ≠ k) :
    (mapSet m k v).lookup k' = m.lookup k' := by
  cases h : m.any (fun e => e.1 == k) with
  | true => rw [mapSet_pos m k v h]; exact lookup_map_overwrite_ne m k k' v hne
  | false => rw [mapSet_neg m k v h]; exact lookup_append_single_ne m k k' v hne

theorem mem_keys_mapSet_self (m : List (String × Nat)) (k : String) (v : Nat) :
    k ∈ (mapSet m k v).map Prod.fst := by
  cases h : m.any (fun e => e.1 == k) with
  | true =>
    rw [mapSet_pos m k v h]
    obtain ⟨e, he, hk⟩ := List.any_eq_true.mp h
    have hek : e.1 = k := by simpa using hk
    refine List.mem_map.mpr ⟨(k, v), List.mem_map.mpr ⟨e, he, ?_⟩, rfl⟩
    exact ite_beq_true _ _ _ _ hek
  | false =>
    rw [mapSet_neg m k v h]
    simp

theorem mem_keys_mapSet_of_mem (m : List (String × Nat)) (k k' : String)
    (v : Nat) (h : k' ∈ m.map Prod.fst) :
    k' ∈ (mapSet m k v).map Prod.fst := by
  by_cases hk : k' = k
  · subst hk; exact mem_keys_mapSet_self m k' v
  · cases h2 : m.any (fun e => e.1 == k) with
    | true =>
      rw [mapSet_pos m k v h2]
      obtain ⟨e, he, hk'⟩ := List.mem_map.mp h
      have hek : ¬ e.1 = k := by rw [hk']; exact hk
      refine List.mem_map.mpr ⟨e, List.mem_map.mpr ⟨e, he, ?_⟩, hk'⟩
      exact ite_beq_false _ _ _ _ hek
    | false =>
      rw [mapSet_neg m k v h2]
      simp only [List.map_append, List.mem_append]
      exact Or.inl h

theorem snd_of_mem_mapSet (m : List (String × Nat)) (k : String) (v : Nat) :
    ∀ e ∈ mapSet m k v, e.1 = k → e.2 = v := by
  cases h : m.any (fun e => e.1 == k) with
  | true =>
    rw [mapSet_pos m k v h]
    intro e he hek
    obtain ⟨e0, he0m, heq⟩ := List.mem_map.mp he
    by_cases h0 : e0.1 = k
    · rw [ite_beq_true _ _ _ _ h0] at heq
      rw [← heq]
    · rw [ite_beq_false _ _ _ _ h0] at heq
      rw [← heq] at hek
      exact absurd hek h0
  | false =>
    rw [mapSet_neg m k v h]
    intro e he hek
    rcases List.mem_append.mp he with hm | hs
    · exfalso
      have hx : m.any (fun e => e.1 == k) = true :=
        List.any_eq_true.mpr ⟨e, hm, by simpa using hek⟩
      rw [h] at hx
      exact Bool.false_ne_true hx
    · simp only [List.mem_singleton] at hs
      rw [hs]

/-! ### Lemmas about cleanupClients and getStats -/

theorem mem_keys_cleanup_of_le (m : List (String × Nat)) (id : String)
    (t0 T : Nat) (h : T ≤ t0 + timeoutMs) :
    id ∈ (cleanupClients (mapSet m id t0) T).map Prod.fst := by
  obtain ⟨e, he, hk⟩ := List.mem_map.mp (mem_keys_mapSet_self m id t0)
  have hv : e.2 = t0 := snd_of_mem_mapSet m id t0 e he hk
  have hkeep : (!(decide (timeoutMs < T - e.2))) = true := by
    rw [hv]
    simp only [Bool.not_eq_true', decide_eq_false_iff_not, not_lt]
    omega
  exact List.mem_map.mpr ⟨e, List.mem_filter.mpr ⟨he, hkeep⟩, hk⟩

theorem not_mem_keys_cleanup_of_lt (m : List (String × Nat)) (id : String)
    (t0 T : Nat) (h : t0 + timeoutMs < T) :
    id ∉ (cleanupClients (mapSet m id t0) T).map Prod.fst := by
  intro hmem
  obtain ⟨e, he, hk⟩ := List.mem_map.mp hmem
  obtain ⟨hem, hpred⟩ := List.mem_filter.mp he
  have hv : e.2 = t0 := snd_of_mem_mapSet m id t0 e hem hk
  rw [hv] at hpred
  simp only [Bool.not_eq_true', decide_eq_false_iff_not, not_lt] at hpred
  omega

theorem getStats_clientLines_keys (cl : List (String × Nat)) (p u now : Nat) :
    ((getStats cl p u now).1.clientLines).map Prod.fst = cl.map Prod.fst := by
  simp [getStats, List.map_map, Function.comp]

/-! ### Lemmas about the message callback -/

theorem onMessage_clients (cl : List (String × Nat)) (env : Env)
    (payload : String) (rinfo : Rinfo) :
    (onMessage cl env payload rinfo).clients
      = mapSet cl (clientId rinfo) env.recvNow := by
  cases hp : jsonParse payload with
  | none => simp only [onMessage, hp]
  | some v =>
    rcases hh : handleJoystickData env v rinfo with ⟨lg, res⟩
    cases res <;> simp only [onMessage, hp, hh]

theorem handleJoystickData_eq_error (env : Env) (v : JVal) (rinfo : Rinfo)
    (h : distancesResult v = Except.error ()) :
    handleJoystickData env v rinfo = ([], Except.error ()) := by
  cases h1 : jsGet v "left" with
  | error e => simp only [handleJoystickData, h1]
  | ok l =>
    cases h2 : jsGet l "distance" with
    | error e => simp only [handleJoystickData, h1, h2]
    | ok ldv =>
      cases h3 : jsGet v "right" with
      | error e => simp only [handleJoystickData, h1, h2, h3]
      | ok r =>
        cases h4 : jsGet r "distance" with
        | error e => simp only [handleJoystickData, h1, h2, h3, h4]
        | ok rdv =>
          simp only [distancesResult, h1, h2, h3, h4] at h
          exact Except.noConfusion h

/-- Shared fallback fact: when JSON.parse succeeds but the joystick
handler throws at the distance reads, the callback falls back to the text
echo. -/
theorem onMessage_fallback_sent (cl : List (String × Nat)) (env : Env)
    (payload : String) (rinfo : Rinfo) (v : JVal)
    (hp : jsonParse payload = some v)
    (hd : distancesResult v = Except.error ()) :
    (onMessage cl env payload rinfo).sent
      = [Sent.text ("Server received: \"" ++ payload ++ "\" at "
            ++ env.localTimeStr) rinfo] := by
  simp only [onMessage, hp, handleJoystickData_eq_error env v rinfo hd,
    handleTextMessage]

/-- A successful property read pins the receiver, so every other read on
it succeeds as well. -/
theorem jsGet_ok_of_ok (o : JVal) (key : String) (w : JVal)
    (h : jsGet o key = .ok w) :
    ∀ key2, ∃ w2, jsGet o key2 = .ok w2 := by
  intro key2
  cases o with
  | undefined => exact absurd h (by simp [jsGet])
  | null => exact absurd h (by simp [jsGet])
  | bool b => exact ⟨.undefined, rfl⟩
  | num q => exact ⟨.undefined, rfl⟩
  | str s => exact ⟨.undefined, rfl⟩
  | arr es => exact ⟨.undefined, rfl⟩
  | obj fs => exact ⟨_, rfl⟩

theorem axisBlock_ok (ax : AxisTag) (o : JVal) (xs ys angs : String)
    (hx : jsGet o "x" = .ok (JVal.str xs))
    (hy : jsGet o "y" = .ok (JVal.str ys))
    (ha : jsGet o "angle" = .ok (JVal.str angs)) :
    (axisBlock ax o).2 = Except.ok () := by
  obtain ⟨dv, hd⟩ := jsGet_ok_of_ok o "x" (JVal.str xs) hx "distance"
  unfold axisBlock
  rw [hx, hy, ha, hd]
  rfl

theorem handleJoystickData_ack (env : Env) (data : JVal) (rinfo : Rinfo)
    (l r ldv rdv : JVal) (lx ly la rx ry ra : String)
    (hL : jsGet data "left" = .ok l)
    (hLd : jsGet l "distance" = .ok ldv)
    (hR : jsGet data "right" = .ok r)
    (hRd : jsGet r "distance" = .ok rdv)
    (hlx : jsGet l "x" = .ok (JVal.str lx))
    (hly : jsGet l "y" = .ok (JVal.str ly))
    (hla : jsGet l "angle" = .ok (JVal.str la))
    (hrx : jsGet r "x" = .ok (JVal.str rx))
    (hry : jsGet r "y" = .ok (JVal.str ry))
    (hra : jsGet r "angle" = .ok (JVal.str ra))
    (hsig : ((jsParseFloat ldv).gt pointOne
              || (jsParseFloat rdv).gt pointOne) = true) :
    (handleJoystickData env data rinfo).2
      = Except.ok [Sent.control ⟨"received", env.ackNow⟩ rinfo] := by
  cases hgl : (jsParseFloat ldv).gt pointOne with
  | true =>
    cases hgr : (jsParseFloat rdv).gt pointOne with
    | true =>
      simp [handleJoystickData, hL, hLd, hR, hRd, hgl, hgr,
        axisBlock_ok AxisTag.left l lx ly la hlx hly hla,
        axisBlock_ok AxisTag.right r rx ry ra hrx hry hra]
    | false =>
      simp [handleJoystickData, hL, hLd, hR, hRd, hgl, hgr,
        axisBlock_ok AxisTag.left l lx ly la hlx hly hla]
  | false =>
    cases hgr : (jsParseFloat rdv).gt pointOne with
    | true =>
      simp [handleJoystickData, hL, hLd, hR, hRd, hgl, hgr,
        axisBlock_ok AxisTag.right r rx ry ra hrx hry hra]
    | false =>
      rw [hgl, hgr] at hsig
      exact absurd hsig (by simp)

theorem handleJoystickData_noop (env : Env) (data : JVal) (rinfo : Rinfo)
    (l r ldv rdv : JVal)
    (hL : jsGet data "left" = .ok l)
    (hLd : jsGet l "distance" = .ok ldv)
    (hR : jsGet data "right" = .ok r)
    (hRd : jsGet r "distance" = .ok rdv)
    (hgl : (jsParseFloat ldv).gt pointOne = false)
    (hgr : (jsParseFloat rdv).gt pointOne = false) :
    handleJoystickData env data rinfo = ([], Except.ok []) := by
  simp [handleJoystickData, hL, hLd, hR, hRd, hgl, hgr]

/-! ### Lemmas about the listener loop -/

theorem processAll_keys_mono (ds : List (Env × String × Rinfo)) :
    ∀ cl k, k ∈ cl.map Prod.fst → k ∈ (processAll cl ds).1.map Prod.fst := by
  induction ds with
  | nil => intro cl k h; exact h
  | cons d ds ih =>
    intro cl k h
    show k ∈ (processAll (onMessage cl d.1 d.2.1 d.2.2).clients ds).1.map Prod.fst
    refine ih _ k ?_
    rw [onMessage_clients]
    exact mem_keys_mapSet_of_mem _ _ _ _ h

theorem processAll_touches (ds : List (Env × String × Rinfo)) :
    ∀ cl d, d ∈ ds → clientId d.2.2 ∈ (processAll cl ds).1.map Prod.fst := by
  induction ds with
  | nil => intro cl d h; exact absurd h (List.not_mem_nil d)
  | cons d0 ds ih =>
    intro cl d hd
    rcases List.mem_cons.mp hd with h | h
    · subst h
      show clientId d.2.2
          ∈ (processAll (onMessage cl d.1 d.2.1 d.2.2).clients ds).1.map Prod.fst
      refine processAll_keys_mono ds _ _ ?_
      rw [onMessage_clients]
      exact mem_keys_mapSet_self _ _ _
    · exact ih _ d h

/-! ### The claims -/

/-- C2 (amended): for every payload that fails JSON parsing (empty
string, truncated or invalid JSON), or that parses to a value on which
reading left.distance or right.distance throws (left or right missing,
null or undefined — e.g. JSON missing an axis entirely), the callback
falls back to the text handler and exactly one acknowledgment embedding
the literal original payload text is sent.  (The original claim is false
for frames whose axes are present as objects but lack an inner field:
those are processed as control frames, see the counterexample.) -/
theorem text_fallback_ack (cl : List (String × Nat)) (env : Env)
    (payload : String) (rinfo : Rinfo)
    (h : jsonParse payload = none
       ∨ ∃ v, jsonParse payload = some v
              ∧ distancesResult v = Except.error ()) :
    (onMessage cl env payload rinfo).sent
      = [Sent.text ("Server received: \"" ++ payload ++ "\" at "
            ++ env.localTimeStr) rinfo] := by
  rcases h with h | ⟨v, hv, hd⟩
  · simp only [onMessage, h, handleTextMessage]
  · exact onMessage_fallback_sent cl env payload rinfo v hv hd

/-- C2 witness: the plain-text payload "hello" is echoed literally
(spec scenario 3). -/
theorem text_fallback_ack_witness :
    (onMessage [] envW "hello" rinfoW).sent
      = [Sent.text ("Server received: \"" ++ "hello" ++ "\" at "
            ++ envW.localTimeStr) rinfoW] :=
  text_fallback_ack [] envW "hello" rinfoW (Or.inl rfl)

/-- C2 counterexample: a payload that fails the spec's ControlFrame shape
check (its right axis has no distance field) but nevertheless receives
the JSON control acknowledgment, not the text echo the claim requires. -/
theorem control_ack_for_shape_mismatch :
    jsonParse frameMissingDistance = some vMissingDistance
    ∧ specControlFrameShape vMissingDistance = false
    ∧ (onMessage [] envW frameMissingDistance rinfoW).sent
        = [Sent.control ⟨"received", 105⟩ rinfoW] :=
  ⟨rfl, rfl, rfl⟩

/-- C3: for every payload that is valid JSON whose two axis distances
parse to values ≤ 0.1, handling the datagram produces no acknowledgment,
no log output, and changes nothing except the touch of the sender in the
clients map. -/
theorem noise_filter_no_ack (cl : List (String × Nat)) (env : Env)
    (payload : String) (rinfo : Rinfo) (v l r ldv rdv : JVal)
    (ld rd : DecNum)
    (hp : jsonParse payload = some v)
    (hL : jsGet v "left" = .ok l)
    (hLd : jsGet l "distance" = .ok ldv)
    (hR : jsGet v "right" = .ok r)
    (hRd : jsGet r "distance" = .ok rdv)
    (hpl : jsParseFloat ldv = .fin ld)
    (hpr : jsParseFloat rdv = .fin rd)
    (h1 : ld.toRat ≤ 1 / 10) (h2 : rd.toRat ≤ 1 / 10) :
    (onMessage cl env payload rinfo).sent = []
    ∧ (onMessage cl env payload rinfo).logs = []
    ∧ (onMessage cl env payload rinfo).clients
        = mapSet cl (clientId rinfo) env.recvNow := by
  have hgl : (jsParseFloat ldv).gt pointOne = false := by
    rw [hpl]
    exact gt_pointOne_eq_false ld h1
  have hgr : (jsParseFloat rdv).gt pointOne = false := by
    rw [hpr]
    exact gt_pointOne_eq_false rd h2
  have hh := handleJoystickData_noop env v rinfo l r ldv rdv hL hLd hR hRd
    hgl hgr
  refine ⟨?_, ?_, onMessage_clients cl env payload rinfo⟩ <;>
    simp only [onMessage, hp, hh]

/-- C3 witness: spec scenario 1 — both distances 0.0 produce no output at
all beyond the touch. -/
theorem noise_filter_no_ack_witness :
    (onMessage [] envW scenario1Payload rinfoW).sent = []
    ∧ (onMessage [] envW scenario1Payload rinfoW).logs = []
    ∧ (onMessage [] envW scenario1Payload rinfoW).clients
        = mapSet [] (clientId rinfoW) envW.recvNow :=
  noise_filter_no_ack [] envW scenario1Payload rinfoW vScenario1
    (axisStrs "0" "0" "0" "0.0") (axisStrs "0" "0" "0" "0.0")
    (JVal.str "0.0") (JVal.str "0.0") ⟨0, 1⟩ ⟨0, 1⟩
    rfl rfl rfl rfl rfl rfl rfl
    (by norm_num [DecNum.toRat, tenPowN]) (by norm_num [DecNum.toRat, tenPowN])

/-- C4: registry round-trip with timeout 60 seconds (60000 ms, 60 spec
time units of 1000 ms): after touch(id, t0), the stats snapshot includes
id; a sweep at any time ≤ t0 + timeout (such as t0 + 29 units) keeps it;
a sweep at any time strictly greater than t0 + timeout removes it, and a
snapshot taken after that sweep no longer includes id. -/
theorem registry_roundtrip (m : List (String × Nat)) (id : String)
    (t0 T1 T2 p u n1 n2 : Nat)
    (h1 : T1 ≤ t0 + timeoutMs) (h2 : t0 + timeoutMs < T2) :
    id ∈ ((getStats (mapSet m id t0) p u n1).1.clientLines.map Prod.fst)
    ∧ id ∈ ((cleanupClients (mapSet m id t0) T1).map Prod.fst)
    ∧ id ∉ ((cleanupClients (mapSet m id t0) T2).map Prod.fst)
    ∧ id ∉ (((getStats (cleanupClients (mapSet m id t0) T2) p u
          n2).1.clientLines).map Prod.fst) := by
  refine ⟨?_, mem_keys_cleanup_of_le m id t0 T1 h1,
    not_mem_keys_cleanup_of_lt m id t0 T2 h2, ?_⟩
  · rw [getStats_clientLines_keys]
    exact mem_keys_mapSet_self m id t0
  · rw [getStats_clientLines_keys]
    exact not_mem_keys_cleanup_of_lt m id t0 T2 h2

/-- C4 witness: spec scenario 4 — touched at t=0, the sweep at 29 units
(29000 ms) keeps the peer and the sweep at 61 units (61000 ms) removes
it. -/
theorem registry_roundtrip_witness :
    "1.2.3.4:5" ∈ ((cleanupClients (mapSet [] "1.2.3.4:5" 0)
        (29 * 1000)).map Prod.fst)
    ∧ "1.2.3.4:5" ∉ ((cleanupClients (mapSet [] "1.2.3.4:5" 0)
        (61 * 1000)).map Prod.fst) := by
  have h := registry_roundtrip [] "1.2.3.4:5" 0 (29 * 1000) (61 * 1000)
    8080 1 0 0 (by norm_num [timeoutMs]) (by norm_num [timeoutMs])
  exact ⟨h.2.1, h.2.2.1⟩

/-- C5: touch has upsert semantics — the first touch of a distinct
identity grows the registry by exactly one entry, every later touch of
that identity keeps the size, overwrites its lastSeenAt, and leaves every
other key's entry unchanged. -/
theorem touch_upsert (m : List (String × Nat)) (id : String) (t t2 : Nat) :
    (id ∉ m.map Prod.fst → (mapSet m id t).length = m.length + 1)
    ∧ (id ∈ m.map Prod.fst → (mapSet m id t).length = m.length)
    ∧ (mapSet (mapSet m id t) id t2).length = (mapSet m id t).length
    ∧ (mapSet m id t).lookup id = some t
    ∧ ∀ k, k ≠ id → (mapSet m id t).lookup k = m.lookup k := by
  have hlen_mem : ∀ (m2 : List (String × Nat)) (t3 : Nat),
      id ∈ m2.map Prod.fst → (mapSet m2 id t3).length = m2.length := by
    intro m2 t3 hm
    rw [mapSet_pos _ _ _ ((mem_keys_iff_any m2 id).mp hm)]
    exact List.length_map _ _
  refine ⟨?_, hlen_mem m t, hlen_mem _ t2 (mem_keys_mapSet_self m id t),
    lookup_mapSet_self m id t, fun k hk => lookup_mapSet_ne m id k t hk⟩
  intro hnm
  have hany : m.any (fun e => e.1 == id) = false := by
    cases hx : m.any (fun e => e.1 == id) with
    | false => rfl
    | true => exact absurd ((mem_keys_iff_any m id).mpr hx) hnm
  rw [mapSet_neg _ _ _ hany]
  simp

/-- C5 witness: inserting a fresh key grows a one-entry registry to two
entries; touching the existing key keeps it at one. -/
theorem touch_upsert_witness :
    (mapSet [("a", 1)] "b" 5).length = [("a", 1)].length + 1
    ∧ (mapSet [("a", 1)] "a" 5).length = [("a", 1)].length :=
  ⟨(touch_upsert [("a", 1)] "b" 5 5).1 (by decide),
   (touch_upsert [("a", 1)] "a" 5 5).2.1 (by decide)⟩

/-- C6: for every otherwise well-formed ControlFrame (both axes present
with all four fields as strings) whose left or right distance is
malformed numeric text, the control handler does not raise — whatever
the other axis holds; the malformed distance counts as non-significant
(its NaN fails the threshold test), so when the other axis is also below
threshold the malformed axis alone triggers no logging and no
acknowledgment. -/
theorem malformed_distance_non_significant (env : Env) (data : JVal)
    (rinfo : Rinfo) (l r : JVal)
    (lx ly la lds rx ry ra rds : String)
    (hL : jsGet data "left" = .ok l)
    (hR : jsGet data "right" = .ok r)
    (hlx : jsGet l "x" = .ok (JVal.str lx))
    (hly : jsGet l "y" = .ok (JVal.str ly))
    (hla : jsGet l "angle" = .ok (JVal.str la))
    (hld : jsGet l "distance" = .ok (JVal.str lds))
    (hrx : jsGet r "x" = .ok (JVal.str rx))
    (hry : jsGet r "y" = .ok (JVal.str ry))
    (hra : jsGet r "angle" = .ok (JVal.str ra))
    (hrd : jsGet r "distance" = .ok (JVal.str rds))
    (h : parseFloatS lds = PFloat.nan ∨ parseFloatS rds = PFloat.nan) :
    (∃ lg sn, handleJoystickData env data rinfo = (lg, Except.ok sn))
    ∧ ((jsParseFloat (JVal.str lds)).gt pointOne = false
         ∨ (jsParseFloat (JVal.str rds)).gt pointOne = false)
    ∧ ((jsParseFloat (JVal.str lds)).gt pointOne = false →
       (jsParseFloat (JVal.str rds)).gt pointOne = false →
       handleJoystickData env data rinfo = ([], Except.ok [])) := by
  refine ⟨?_, ?_, ?_⟩
  · by_cases hcond : ((jsParseFloat (JVal.str lds)).gt pointOne
        || (jsParseFloat (JVal.str rds)).gt pointOne) = true
    · have hack := handleJoystickData_ack env data rinfo l r
        (JVal.str lds) (JVal.str rds) lx ly la rx ry ra
        hL hld hR hrd hlx hly hla hrx hry hra hcond
      exact ⟨(handleJoystickData env data rinfo).1,
        [Sent.control ⟨"received", env.ackNow⟩ rinfo], by rw [← hack]⟩
    · rw [Bool.not_eq_true, Bool.or_eq_false_iff] at hcond
      exact ⟨[], [], handleJoystickData_noop env data rinfo l r
        (JVal.str lds) (JVal.str rds) hL hld hR hrd hcond.1 hcond.2⟩
  · rcases h with hn | hn
    · refine Or.inl ?_
      show (parseFloatS lds).gt pointOne = false
      rw [hn]
      rfl
    · refine Or.inr ?_
      show (parseFloatS rds).gt pointOne = false
      rw [hn]
      rfl
  · intro hgl hgr
    exact handleJoystickData_noop env data rinfo l r
      (JVal.str lds) (JVal.str rds) hL hld hR hrd hgl hgr

/-- C6 witness: left distance "abc" in an otherwise well-formed frame
with an idle right axis — the handler returns normally, "abc" is
non-significant, and with the idle right axis the output is no logs and
no sends. -/
theorem malformed_distance_witness :
    (∃ lg sn, handleJoystickData envW vMalformed rinfoW
        = (lg, Except.ok sn))
    ∧ ((jsParseFloat (JVal.str "abc")).gt pointOne = false
         ∨ (jsParseFloat (JVal.str "0")).gt pointOne = false)
    ∧ ((jsParseFloat (JVal.str "abc")).gt pointOne = false →
       (jsParseFloat (JVal.str "0")).gt pointOne = false →
       handleJoystickData envW vMalformed rinfoW = ([], Except.ok [])) :=
  malformed_distance_non_significant envW vMalformed rinfoW
    (axisStrs "0" "0" "0" "abc") (axisStrs "0" "0" "0" "0")
    "0" "0" "0" "abc" "0" "0" "0" "0"
    rfl rfl rfl rfl rfl rfl rfl rfl rfl rfl (Or.inl rfl)

/-- C7: per-datagram errors are contained — the message callback is a
total function whose only registry effect is the touch of the sender
(so a failed handling leaves the registry exactly as after its touch),
and in a batch every datagram is processed: each sender ends up in the
registry no matter what any other payload was. -/
theorem errors_contained (cl : List (String × Nat))
    (ds : List (Env × String × Rinfo)) :
    (∀ env payload rinfo, (onMessage cl env payload rinfo).clients
        = mapSet cl (clientId rinfo) env.recvNow)
    ∧ ∀ d, d ∈ ds → clientId d.2.2 ∈ (processAll cl ds).1.map Prod.fst :=
  ⟨fun env payload rinfo => onMessage_clients cl env payload rinfo,
   fun d hd => processAll_touches ds cl d hd⟩

/-- C7 witness: after a batch whose first payload makes the joystick
handler throw, the second datagram's sender is still registered. -/
theorem errors_contained_witness :
    clientId (⟨"8.8.8.8", 2⟩ : Rinfo)
      ∈ (processAll [] [dBad, dGood]).1.map Prod.fst :=
  (errors_contained [] [dBad, dGood]).2 dGood (by simp [dBad, dGood])

/-- C8 (amended): a payload that parses as JSON but whose left or right
axis read throws (axis missing, null, or the value not an object holder)
falls through to the text handler: one text echo acknowledgment is sent
(rather than none, as the original claim said), and the registry equals
the touch of the sender, so the server continues normally. -/
theorem missing_axis_text_echo (cl : List (String × Nat)) (env : Env)
    (payload : String) (rinfo : Rinfo) (v : JVal)
    (hp : jsonParse payload = some v)
    (hd : distancesResult v = Except.error ()) :
    (onMessage cl env payload rinfo).sent
      = [Sent.text ("Server received: \"" ++ payload ++ "\" at "
            ++ env.localTimeStr) rinfo]
    ∧ (onMessage cl env payload rinfo).clients
        = mapSet cl (clientId rinfo) env.recvNow :=
  ⟨onMessage_fallback_sent cl env payload rinfo v hp hd,
   onMessage_clients cl env payload rinfo⟩

/-- C8 witness: the payload pFoo (no axes) gets the text echo and the
registry holds exactly the touch. -/
theorem missing_axis_text_echo_witness :
    (onMessage [] envW pFoo rinfoW).sent
      = [Sent.text ("Server received: \"" ++ pFoo ++ "\" at "
            ++ envW.localTimeStr) rinfoW]
    ∧ (onMessage [] envW pFoo rinfoW).clients
        = mapSet [] (clientId rinfoW) envW.recvNow :=
  missing_axis_text_echo [] envW pFoo rinfoW
    (JVal.obj [("foo", JVal.num ⟨1, 0⟩)]) rfl rfl

/-- C8 counterexample: the claim says such payloads get no acknowledgment
of either kind; in fact pFoo receives a text echo acknowledgment, because
the inner catch falls back to handleTextMessage. -/
theorem foo_payload_gets_ack :
    jsonParse pFoo = some (JVal.obj [("foo", JVal.num ⟨1, 0⟩)])
    ∧ (onMessage [] envW pFoo rinfoW).sent
        = [Sent.text ("Server received: \"" ++ pFoo ++ "\" at " ++ "T")
             rinfoW]
    ∧ (onMessage [] envW pFoo rinfoW).sent ≠ [] :=
  ⟨rfl, rfl, by
    intro hnil
    have h2 : (onMessage [] envW pFoo rinfoW).sent
        = [Sent.text ("Server received: \"" ++ pFoo ++ "\" at " ++ "T")
             rinfoW] := rfl
    rw [h2] at hnil
    exact List.noConfusion hnil⟩

/-- C9: for every inbound datagram the sender's registry entry is set to
the receipt timestamp, and this touch is the only registry mutation the
callback performs: the final clients map is exactly the touch of the
initial one, for every payload, including those whose handling fails. -/
theorem touch_first_and_only (cl : List (String × Nat)) (env : Env)
    (payload : String) (rinfo : Rinfo) :
    (onMessage cl env payload rinfo).clients
      = mapSet cl (clientId rinfo) env.recvNow
    ∧ ((onMessage cl env payload rinfo).clients).lookup (clientId rinfo)
        = some env.recvNow :=
  ⟨onMessage_clients cl env payload rinfo,
   by rw [onMessage_clients]
      exact lookup_mapSet_self cl (clientId rinfo) env.recvNow⟩

/-- C10: the stats report reads the registry without mutating it — the
registry it returns is the one it was given, its active-client count is
the registry size, and its per-peer lines enumerate exactly the registry
keys. -/
theorem getStats_pure (cl : List (String × Nat)) (p u now : Nat) :
    (getStats cl p u now).2 = cl
    ∧ (getStats cl p u now).1.activeClients = cl.length
    ∧ ((getStats cl p u now).1.clientLines).map Prod.fst
        = cl.map Prod.fst :=
  ⟨rfl, rfl, getStats_clientLines_keys cl p u now⟩

end UdpServer
